import Mathlib

set_option autoImplicit false

/-!
Shallow embedding of the visual-translation app's core: the data model
(types.ts), the geometry resolver and frame capturer (CameraFeed), the
overlay mapper and font sizing (Overlay), the inference-service boundary
(geminiService.ts) and the capture/state orchestration (App.tsx).
Numbers are modelled as rationals; the stateful React component is
modelled as explicit state passing on an `AppModel` record.
-/

/-- ScanState of the app (types.ts `AppState`). -/
inductive AppState where
  | IDLE
  | SCANNING
  | ERROR
deriving DecidableEq

/-- One detected text region (types.ts `TranslatedItem`);
`box_2d` is `[ymin, xmin, ymax, xmax]` normalized to 1000. -/
structure TranslatedItem where
  original : String
  translated : String
  box_2d : List ℚ
deriving DecidableEq

/-- Result of one inference call (types.ts `TranslationResult`). -/
structure TranslationResult where
  items : List TranslatedItem
  summary : String
deriving DecidableEq

/-- Persisted history entry (types.ts `HistoryItem`). -/
structure HistoryItem where
  id : String
  timestamp : Nat
  summary : String
  fullText : String
deriving DecidableEq

/-- The sub-rectangle of the container where content pixels are drawn
(the `{x, y, w, h}` object emitted by `onContentRectChange`). -/
structure ContentRect where
  x : ℚ
  y : ℚ
  w : ℚ
  h : ℚ
deriving DecidableEq

namespace CameraFeed

/-- CameraFeed.updateContentRect: computes the content rectangle.
For a static image (object-fit contain) it letterboxes by aspect
comparison and returns `none` while the natural width is still 0;
for live video (object-fit cover) the content fills the container. -/
def updateContentRect (isStatic : Bool) (cw ch nw nh : ℚ) : Option ContentRect :=
  if isStatic then
    if nw = 0 then none
    else
      let imgAspect := nw / nh
      let containerAspect := cw / ch
      if containerAspect > imgAspect then
        let rh := ch
        let rw := ch * imgAspect
        let ry : ℚ := 0
        let rx := (cw - rw) / 2
        some ⟨rx, ry, rw, rh⟩
      else
        let rw := cw
        let rh := cw / imgAspect
        let rx : ℚ := 0
        let ry := (ch - rh) / 2
        some ⟨rx, ry, rw, rh⟩
  else
    some ⟨0, 0, cw, ch⟩

/-- The source crop window and output canvas size computed by
CameraFeed.capture for a live source: `canvas.width = sw`,
`canvas.height = sh`. -/
structure CaptureSpec where
  sx : ℚ
  sy : ℚ
  sw : ℚ
  sh : ℚ
  canvasW : ℚ
  canvasH : ℚ
deriving DecidableEq

/-- CameraFeed.capture, live branch: from raw video size `(vw, vh)` and
displayed element size `(cw, ch)` compute the object-fit cover crop
window `(sx, sy, sw, sh)` and size the canvas to `(sw, sh)`.
Returns `none` when the video is not ready (`vw`/`vh` not positive)
or the element has a zero dimension. -/
def capture (vw vh cw ch : ℚ) : Option CaptureSpec :=
  if 0 < vw ∧ 0 < vh then
    if cw = 0 ∨ ch = 0 then none
    else
      let videoAspect := vw / vh
      let containerAspect := cw / ch
      if containerAspect > videoAspect then
        let sw := vw
        let sh := vw / containerAspect
        let sx : ℚ := 0
        let sy := (vh - sh) / 2
        some ⟨sx, sy, sw, sh, sw, sh⟩
      else
        let sh := vh
        let sw := vh * containerAspect
        let sx := (vw - sw) / 2
        let sy : ℚ := 0
        some ⟨sx, sy, sw, sh, sw, sh⟩
  else none

/-- CameraFeed.capture, source selection: with a static image active the
capture re-emits that image unchanged; otherwise the encoded live frame
(if any) is emitted. -/
def captureFrame (staticImage : Option String) (encodedLive : Option String) : Option String :=
  match staticImage with
  | some s => some s
  | none => encodedLive

end CameraFeed

namespace Overlay

/-- The mapped overlay box in container pixels (Overlay.tsx computes
`top`, `left`, `width`, `height` for each item). -/
structure MappedBox where
  top : ℚ
  left : ℚ
  width : ℚ
  height : ℚ
deriving DecidableEq

/-- Overlay box mapping (Overlay.tsx, `if (contentRect)` branch):
maps a normalized `[ymin, xmin, ymax, xmax]` box into content-rect
pixel coordinates. -/
def mapBox (rect : ContentRect) (ymin xmin ymax xmax : ℚ) : MappedBox :=
  let top := rect.y + ymin / 1000 * rect.h
  let left := rect.x + xmin / 1000 * rect.w
  let height := (ymax - ymin) / 1000 * rect.h
  let width := (xmax - xmin) / 1000 * rect.w
  ⟨top, left, width, height⟩

/-- Overlay.getFontSize: dynamic font size (in px) for a translated
string inside a mapped box. `sqrtFn` stands for the square-root
primitive (`Math.sqrt`); every other operation is embedded exactly.
The code formats the returned number with a `px` suffix. -/
def getFontSize (sqrtFn : ℚ → ℚ) (contentRect : Option ContentRect)
    (textSizeMultiplier : ℚ) (ymin xmin ymax xmax : ℚ) (text : String)
    (rectH : ℚ) : ℚ :=
  let h_px := (ymax - ymin) / 1000 * rectH
  let w_px := (xmax - xmin) / 1000 * (match contentRect with
    | some r => r.w
    | none => rectH)
  let len : ℚ := if text.length = 0 then 1 else (text.length : ℚ)
  let maxH := h_px * (0.55 : ℚ)
  let area := w_px * h_px
  let densitySize := sqrtFn (area / len) * (1.2 : ℚ)
  let size := min maxH densitySize
  let size' := size * textSizeMultiplier
  max 10 (min size' 42)

end Overlay

namespace GeminiService

/-- Whitespace class of the JavaScript regex `\s` (and of
`String.prototype.trim`). -/
def isJsSpace (c : Char) : Bool :=
  c == ' ' || c == '\t' || c == '\n' || c == '\r' ||
  c == Char.ofNat 11 || c == Char.ofNat 12 || c == Char.ofNat 0xa0 ||
  c == Char.ofNat 0x1680 || c == Char.ofNat 0x2028 || c == Char.ofNat 0x2029 ||
  c == Char.ofNat 0x202f || c == Char.ofNat 0x205f || c == Char.ofNat 0x3000 ||
  c == Char.ofNat 0xfeff

/-- The backquote character. -/
def backquote : Char := Char.ofNat 96

/-- First alternative of the fence-stripping regex: three backquotes,
`json`, then greedily consumed whitespace. Returns the remaining input
on a match at the head of `cs`. -/
def matchFenceJson (cs : List Char) : Option (List Char) :=
  match cs with
  | b1 :: b2 :: b3 :: 'j' :: 's' :: 'o' :: 'n' :: rest =>
    if b1 == backquote && b2 == backquote && b3 == backquote then
      some (rest.dropWhile isJsSpace)
    else none
  | _ => none

/-- Second alternative of the fence-stripping regex: greedily consumed
whitespace followed by three backquotes. -/
def matchSpacesFence (cs : List Char) : Option (List Char) :=
  match cs.dropWhile isJsSpace with
  | b1 :: b2 :: b3 :: rest =>
    if b1 == backquote && b2 == backquote && b3 == backquote then some rest
    else none
  | _ => none

/-- Global scan of the fence-stripping regex replacement: at each
position try the first alternative, then the second; on a match drop
the matched span and continue after it, otherwise keep one character
and continue. Fueled structural recursion (every step consumes at
least one character, so `cs.length` fuel suffices). -/
def stripAux : Nat → List Char → List Char
  | 0, cs => cs
  | fuel + 1, cs =>
    match matchFenceJson cs with
    | some rest => stripAux fuel rest
    | none =>
      match matchSpacesFence cs with
      | some rest => stripAux fuel rest
      | none =>
        match cs with
        | [] => []
        | c :: tail => c :: stripAux fuel tail

/-- The markdown-fence stripping in geminiService.ts: replace every
match of the two-alternative regex with the empty string. -/
def stripFences (s : String) : String := ⟨stripAux s.data.length s.data⟩

/-- JavaScript `String.prototype.trim`. -/
def jsTrim (s : String) : String :=
  ⟨((s.data.dropWhile isJsSpace).reverse.dropWhile isJsSpace).reverse⟩

/-- The completed cleanup applied before parsing in geminiService.ts. -/
def cleanOf (t : String) : String := jsTrim (stripFences t)

/-- The JavaScript value produced by a successful `JSON.parse`: either a
falsy value (`null`, `false`, `0`, the empty string) or a value used as
a `TranslationResult`. -/
inductive ParsedVal where
  | jsFalsy
  | jsResult (r : TranslationResult)
deriving DecidableEq

/-- Outcome of the remote call as seen inside translateImage: the call
threw (transport/API failure), or it produced a response whose `text`
is absent or a string. -/
inductive GenResponse where
  | transportError
  | body (text : Option String)
deriving DecidableEq

/-- Fallback for a transport/API failure. -/
def connectionErrorResult : TranslationResult :=
  ⟨[], "Connection error. Please check your internet."⟩

/-- Fallback for an empty/missing response body. -/
def emptyTextResult : TranslationResult :=
  ⟨[], "Could not process image (Safety filter or Network error)."⟩

/-- Fallback for a body that fails to parse after fence-stripping. -/
def invalidFormatResult : TranslationResult :=
  ⟨[], "Translation failed: Invalid response format."⟩

/-- geminiService.translateImage: total function from the call outcome
to the value returned to the caller. `jsonParse` stands for the
platform `JSON.parse` primitive (`none` models a parse exception). -/
def translateImage (jsonParse : String → Option ParsedVal)
    (resp : GenResponse) : ParsedVal :=
  match resp with
  | .transportError => .jsResult connectionErrorResult
  | .body t =>
    match t with
    | none => .jsResult emptyTextResult
    | some text =>
      if text = "" then .jsResult emptyTextResult
      else
        let cleanText := cleanOf text
        match jsonParse cleanText with
        | some v => v
        | none => .jsResult invalidFormatResult

/-- geminiService.translateImageOffline: the canned offline stub. -/
def translateImageOffline : TranslationResult :=
  ⟨[⟨"オフライン", "오프라인 모드", [350, 200, 500, 800]⟩,
    ⟨"接続なし", "연결 상태 양호", [550, 300, 650, 700]⟩],
   "Using downloaded language packs. (Simulation: Real local inference would run here using the stored models)."⟩


/-- A concrete markdown-fenced JSON body used in concrete evaluations. -/
def fencedBody : String := "```json\n\x7b\"items\":[],\"summary\":\"ok\"\x7d\n```"

/-- The JSON payload inside `fencedBody`. -/
def innerBody : String := "\x7b\"items\":[],\"summary\":\"ok\"\x7d"

/-- A `JSON.parse` model accepting exactly `innerBody`. -/
def jpOk : String → Option ParsedVal :=
  fun s => if s = innerBody then some (.jsResult ⟨[], "ok"⟩) else none

end GeminiService

namespace App

/-- Camera facing mode. -/
inductive CameraFacing where
  | environment
  | user
deriving DecidableEq

/-- The flip performed by toggleCamera. -/
def toggleFacing : CameraFacing → CameraFacing
  | .environment => .user
  | .user => .environment

/-- The App component's state relevant to capture orchestration
(App.tsx useState hooks; the screen stream is identified by a number,
`none` meaning no active share). -/
structure AppModel where
  isAutoMode : Bool
  appState : AppState
  translationData : Option TranslationResult
  cameraFacing : CameraFacing
  screenStream : Option Nat
  isScreenShareSupported : Bool
  staticImage : Option String
  contentRect : Option ContentRect
  isSettingsOpen : Bool
  history : List HistoryItem
  autoSave : Bool
  useOfflineMode : Bool
deriving DecidableEq

/-- App.saveToHistory: `now` models `Date.now()`. Mirrors the source,
including `[newItem, ...prev].slice(50)` (`List.drop 50`), which keeps
only the elements from index 50 onwards. -/
def saveToHistory (now : Nat) (result : TranslationResult)
    (prev : List HistoryItem) : List HistoryItem :=
  if result.items.isEmpty ∧ result.summary = "" then prev
  else
    let fullText :=
      if ¬ result.items.isEmpty then
        String.intercalate "\n"
          (result.items.map (fun i => i.original ++ " -> " ++ i.translated))
      else
        "[Summary Only] " ++ result.summary
    let isDup :=
      match prev with
      | [] => false
      | p :: _ => p.fullText == fullText && p.summary == result.summary
    if isDup then prev
    else
      let newItem : HistoryItem :=
        ⟨toString now, now,
         if result.summary = "" then "No summary" else result.summary,
         fullText⟩
      (newItem :: prev).drop 50

/-- Result of one run of App.handleFrameCapture: the state after the
awaited call resolves, the auto-recovery delay scheduled from the Error
state (if any), and whether an inference call was started. -/
structure CaptureOutcome where
  post : AppModel
  recoveryDelayMs : Option Nat
  inferenceStarted : Bool
deriving DecidableEq

/-- App.handleFrameCapture: guard against re-entry while Scanning or
with the settings surface open; freeze the frame when manual-scanning a
live view; run the (online or offline) inference; on a truthy result
store it, optionally auto-save, and return to Idle; on a falsy result
the `throw new Error("Empty result")` path sets Error and schedules a
return to Idle after 3000 ms (auto mode) or 2000 ms. -/
def handleFrameCapture (jsonParse : String → Option GeminiService.ParsedVal)
    (st : AppModel) (base64Image : String) (resp : GeminiService.GenResponse)
    (now : Nat) : CaptureOutcome :=
  if st.appState = AppState.SCANNING ∨ st.isSettingsOpen then ⟨st, none, false⟩
  else
    let st1 :=
      if ¬ st.isAutoMode ∧ st.staticImage = none then
        { st with staticImage := some base64Image }
      else st
    let st2 := { st1 with appState := AppState.SCANNING }
    let result : GeminiService.ParsedVal :=
      if st.useOfflineMode then .jsResult GeminiService.translateImageOffline
      else GeminiService.translateImage jsonParse resp
    match result with
    | .jsResult r =>
      let st3 := { st2 with translationData := some r }
      let st4 :=
        if st.autoSave ∧ ¬ r.items.isEmpty then
          { st3 with history := saveToHistory now r st3.history }
        else st3
      ⟨{ st4 with appState := AppState.IDLE }, none, true⟩
    | .jsFalsy =>
      ⟨{ st2 with appState := AppState.ERROR },
       some (if st.isAutoMode then 3000 else 2000), true⟩

/-- The deferred `setAppState(AppState.IDLE)` run when the scheduled
error-recovery timeout fires. -/
def errorRecovery (st : AppModel) : AppModel :=
  { st with appState := AppState.IDLE }

/-- App.clearStaticImage. -/
def clearStaticImage (st : AppModel) : AppModel :=
  { st with staticImage := none, translationData := none, contentRect := none }

/-- App.toggleAutoMode: clears a frozen static frame, flips auto mode,
and (when auto mode was previously on) resets the scan state to Idle. -/
def toggleAutoMode (st : AppModel) : AppModel :=
  let st1 := if st.staticImage.isSome then clearStaticImage st else st
  let st2 := { st1 with isAutoMode := ! st1.isAutoMode }
  if st.isAutoMode then { st2 with appState := AppState.IDLE } else st2

/-- App.handleManualScan: arms the brief fake auto-mode pulse only when
auto mode is off and the scan state is Idle; the returned Bool records
whether the pulse was armed. -/
def handleManualScan (st : AppModel) : AppModel × Bool :=
  if ¬ st.isAutoMode ∧ st.appState = AppState.IDLE then
    ({ st with isAutoMode := true }, true)
  else (st, false)

/-- App.toggleCamera. -/
def toggleCamera (st : AppModel) : AppModel :=
  { st with cameraFacing := toggleFacing st.cameraFacing }

/-- App.toggleScreenShare: `acquired` models the outcome of
`getDisplayMedia` (a new stream or a rejection). -/
def toggleScreenShare (st : AppModel) (acquired : Option Nat) : AppModel :=
  if ¬ st.isScreenShareSupported then st
  else
    match st.screenStream with
    | some _ => { st with screenStream := none }
    | none =>
      match acquired with
      | some stream => { st with screenStream := some stream }
      | none => st

/-- Accumulator pass of the JavaScript `split(',')`. -/
def splitCommaAux : List Char → List Char → List String
  | [], acc => [⟨acc.reverse⟩]
  | c :: rest, acc =>
    if c = ',' then (⟨acc.reverse⟩ : String) :: splitCommaAux rest []
    else splitCommaAux rest (c :: acc)

/-- JavaScript `String.prototype.split` with separator `","`. -/
def splitOnComma (s : String) : List String := splitCommaAux s.data []

/-- App.handleFileUpload: with a chosen file whose data URL read
succeeded, store the base64 payload (the part after the first comma) as
the static image, clear the previous result and turn auto mode off. -/
def handleFileUpload (st : AppModel) (fileDataUrl : Option String) : AppModel :=
  match fileDataUrl with
  | none => st
  | some dataUrl =>
    if dataUrl = "" then st
    else
      { st with staticImage := (splitOnComma dataUrl)[1]?,
                translationData := none,
                isAutoMode := false }

/-- A concrete detected item used in concrete evaluations. -/
def exItem : TranslatedItem := ⟨"こんにちは", "안녕하세요", [0, 0, 100, 500]⟩

/-- A concrete one-item result used in concrete evaluations. -/
def exResult : TranslationResult := ⟨[exItem], "greeting"⟩

/-- A concrete idle app state: auto mode off, no static image, online,
settings closed, empty history. -/
def stIdle : AppModel :=
  ⟨false, AppState.IDLE, none, CameraFacing.environment, none, false,
   none, none, false, [], false, false⟩

/-- `stIdle` while a scan is in flight. -/
def stScanning : AppModel := { stIdle with appState := AppState.SCANNING }

/-- `stIdle` in the error state with a displayed result. -/
def stError : AppModel :=
  { stIdle with appState := AppState.ERROR, translationData := some exResult }

/-- A `JSON.parse` model that always throws. -/
def jpNone : String → Option GeminiService.ParsedVal := fun _ => none

/-- A `JSON.parse` model that always returns a falsy value. -/
def jpFalsy : String → Option GeminiService.ParsedVal := fun _ => some .jsFalsy


/-- `stIdle` with a frozen static frame. -/
def stFrozen : AppModel := { stIdle with staticImage := some "frame" }

end App

/-! ## Theorems -/

/-- C2: for every normalized box with `0 ≤ ymin ≤ ymax ≤ 1000` and
`0 ≤ xmin ≤ xmax ≤ 1000` and every ContentRect with nonnegative width
and height, the overlay mapping computes the stated coordinates and the
mapped box lies entirely inside the ContentRect. -/
theorem mapBox_inside (rect : ContentRect) (ymin xmin ymax xmax : ℚ)
    (hy0 : 0 ≤ ymin) (hyy : ymin ≤ ymax) (hy1 : ymax ≤ 1000)
    (hx0 : 0 ≤ xmin) (hxx : xmin ≤ xmax) (hx1 : xmax ≤ 1000)
    (hw : 0 ≤ rect.w) (hh : 0 ≤ rect.h) :
    (Overlay.mapBox rect ymin xmin ymax xmax).top = rect.y + ymin / 1000 * rect.h ∧
    (Overlay.mapBox rect ymin xmin ymax xmax).left = rect.x + xmin / 1000 * rect.w ∧
    (Overlay.mapBox rect ymin xmin ymax xmax).height = (ymax - ymin) / 1000 * rect.h ∧
    (Overlay.mapBox rect ymin xmin ymax xmax).width = (xmax - xmin) / 1000 * rect.w ∧
    rect.y ≤ (Overlay.mapBox rect ymin xmin ymax xmax).top ∧
    rect.x ≤ (Overlay.mapBox rect ymin xmin ymax xmax).left ∧
    (Overlay.mapBox rect ymin xmin ymax xmax).top +
      (Overlay.mapBox rect ymin xmin ymax xmax).height ≤ rect.y + rect.h ∧
    (Overlay.mapBox rect ymin xmin ymax xmax).left +
      (Overlay.mapBox rect ymin xmin ymax xmax).width ≤ rect.x + rect.w := by
  refine ⟨rfl, rfl, rfl, rfl, ?_, ?_, ?_, ?_⟩
  · show rect.y ≤ rect.y + ymin / 1000 * rect.h
    nlinarith [mul_nonneg hy0 hh]
  · show rect.x ≤ rect.x + xmin / 1000 * rect.w
    nlinarith [mul_nonneg hx0 hw]
  · show rect.y + ymin / 1000 * rect.h + (ymax - ymin) / 1000 * rect.h ≤ rect.y + rect.h
    nlinarith [mul_nonneg (sub_nonneg.mpr hy1) hh]
  · show rect.x + xmin / 1000 * rect.w + (xmax - xmin) / 1000 * rect.w ≤ rect.x + rect.w
    nlinarith [mul_nonneg (sub_nonneg.mpr hx1) hw]

/-- C2 witness: the spec scenario rect `{0,0,1000,500}`, box
`[100,100,300,400]`, mapped to `{top 50, left 100, width 300, height 100}`
and inside the rect. -/
theorem mapBox_inside_witness :
    (⟨0, 0, 1000, 500⟩ : ContentRect).y ≤
      (Overlay.mapBox ⟨0, 0, 1000, 500⟩ 100 100 300 400).top ∧
    (Overlay.mapBox ⟨0, 0, 1000, 500⟩ 100 100 300 400).top = 50 ∧
    (Overlay.mapBox ⟨0, 0, 1000, 500⟩ 100 100 300 400).left = 100 ∧
    (Overlay.mapBox ⟨0, 0, 1000, 500⟩ 100 100 300 400).width = 300 ∧
    (Overlay.mapBox ⟨0, 0, 1000, 500⟩ 100 100 300 400).height = 100 :=
  ⟨(mapBox_inside ⟨0, 0, 1000, 500⟩ 100 100 300 400 (by norm_num) (by norm_num)
      (by norm_num) (by norm_num) (by norm_num) (by norm_num) (by norm_num)
      (by norm_num)).2.2.2.2.1,
   by norm_num [Overlay.mapBox], by norm_num [Overlay.mapBox],
   by norm_num [Overlay.mapBox], by norm_num [Overlay.mapBox]⟩

/-- C3: for every square-root primitive, content rect, multiplier, box
numbers, text and rect height, the computed font size lies in
`[10, 42]` pixels. -/
theorem getFontSize_bounded (sqrtFn : ℚ → ℚ) (contentRect : Option ContentRect)
    (textSizeMultiplier : ℚ) (ymin xmin ymax xmax : ℚ) (text : String)
    (rectH : ℚ) :
    10 ≤ Overlay.getFontSize sqrtFn contentRect textSizeMultiplier
          ymin xmin ymax xmax text rectH ∧
    Overlay.getFontSize sqrtFn contentRect textSizeMultiplier
          ymin xmin ymax xmax text rectH ≤ 42 := by
  unfold Overlay.getFontSize
  exact ⟨le_max_left _ _, max_le (by norm_num) (min_le_right _ _)⟩

/-- C4: for positive container and natural sizes, the contain-fit
content rectangle is the letterboxed, centered rectangle determined by
the aspect-ratio comparison. -/
theorem updateContentRect_contain (cw ch nw nh : ℚ)
    (hcw : 0 < cw) (hch : 0 < ch) (hnw : 0 < nw) (hnh : 0 < nh) :
    CameraFeed.updateContentRect true cw ch nw nh =
      some (if cw / ch > nw / nh then
              ⟨(cw - ch * (nw / nh)) / 2, 0, ch * (nw / nh), ch⟩
            else
              ⟨0, (ch - cw / (nw / nh)) / 2, cw, cw / (nw / nh)⟩) := by
  unfold CameraFeed.updateContentRect
  rw [if_pos rfl, if_neg hnw.ne']
  dsimp only
  by_cases hc : cw / ch > nw / nh
  · rw [if_pos hc, if_pos hc]
  · rw [if_neg hc, if_neg hc]

/-- C4 witness: container 800×400 with source 1200×1200 yields the
ContentRect `{200, 0, 400, 400}`. -/
theorem updateContentRect_contain_witness :
    CameraFeed.updateContentRect true 800 400 1200 1200 = some ⟨200, 0, 400, 400⟩ := by
  rw [updateContentRect_contain 800 400 1200 1200 (by norm_num) (by norm_num)
    (by norm_num) (by norm_num)]
  rw [if_pos (by norm_num : (800 : ℚ) / 400 > 1200 / 1200)]
  norm_num

/-- C5: for positive raw video size and displayed element size, the
cover-fit capture crop window has the element's aspect ratio, is
centered in the source along the slack axis per the stated case split,
and the output canvas is sized `(sw, sh)`. -/
theorem capture_cover_crop (vw vh cw ch : ℚ)
    (hvw : 0 < vw) (hvh : 0 < vh) (hcw : 0 < cw) (hch : 0 < ch) :
    ∃ spec : CameraFeed.CaptureSpec,
      CameraFeed.capture vw vh cw ch = some spec ∧
      spec.sw / spec.sh = cw / ch ∧
      (if cw / ch > vw / vh then
        spec.sw = vw ∧ spec.sh = vw / (cw / ch) ∧ spec.sx = 0 ∧
          spec.sy = (vh - spec.sh) / 2
       else
        spec.sh = vh ∧ spec.sw = vh * (cw / ch) ∧ spec.sy = 0 ∧
          spec.sx = (vw - spec.sw) / 2) ∧
      spec.canvasW = spec.sw ∧ spec.canvasH = spec.sh := by
  have hcc : (0 : ℚ) < cw / ch := div_pos hcw hch
  unfold CameraFeed.capture
  rw [if_pos ⟨hvw, hvh⟩, if_neg (by push_neg; exact ⟨hcw.ne', hch.ne'⟩)]
  dsimp only
  by_cases hc : cw / ch > vw / vh
  · rw [if_pos hc]
    refine ⟨_, rfl, ?_, ?_, rfl, rfl⟩
    · show vw / (vw / (cw / ch)) = cw / ch
      rw [div_div_eq_mul_div, mul_comm vw (cw / ch), mul_div_assoc,
        div_self hvw.ne', mul_one]
    · rw [if_pos hc]
      exact ⟨rfl, rfl, rfl, rfl⟩
  · rw [if_neg hc]
    refine ⟨_, rfl, ?_, ?_, rfl, rfl⟩
    · show vh * (cw / ch) / vh = cw / ch
      rw [mul_comm, mul_div_assoc, div_self hvh.ne', mul_one]
    · rw [if_neg hc]
      exact ⟨rfl, rfl, rfl, rfl⟩

/-- C5 witness: a 1920×1080 video displayed in a 1000×500 element crops
to the full-width, vertically centered window `(0, 60, 1920, 960)` with
a canvas of the same size, and `1920/960 = 1000/500`. -/
theorem capture_cover_crop_witness :
    CameraFeed.capture 1920 1080 1000 500 = some ⟨0, 60, 1920, 960, 1920, 960⟩ ∧
    (∃ spec : CameraFeed.CaptureSpec,
      CameraFeed.capture 1920 1080 1000 500 = some spec ∧
      spec.sw / spec.sh = 1000 / 500) := by
  obtain ⟨spec, heq, hasp, -, -⟩ :=
    capture_cover_crop 1920 1080 1000 500 (by norm_num) (by norm_num)
      (by norm_num) (by norm_num)
  refine ⟨?_, spec, heq, hasp⟩
  unfold CameraFeed.capture
  rw [if_pos (by norm_num), if_neg (by norm_num)]
  dsimp only
  rw [if_pos (by norm_num : (1000 : ℚ) / 500 > 1920 / 1080)]
  norm_num

/-- C1 (code bug): saving a fresh one-item result to an empty history
leaves the history empty — `[newItem, ...prev].slice(50)` drops the
first 50 entries instead of keeping them, so the length does not
increase by 1 as the cap policy requires. -/
theorem saveToHistory_drop_bug :
    App.saveToHistory 0 App.exResult [] = [] ∧
    (App.saveToHistory 0 App.exResult []).length = 0 := by
  constructor <;> rfl

/-- C7: translateImage is total and maps a transport failure, a missing
body, an empty body and an unparseable body to the defined fallback
results, while a body that parses after fence-stripping is returned
as parsed. -/
theorem translateImage_fallbacks (jsonParse : String → Option GeminiService.ParsedVal) :
    GeminiService.translateImage jsonParse GeminiService.GenResponse.transportError
      = GeminiService.ParsedVal.jsResult GeminiService.connectionErrorResult ∧
    GeminiService.translateImage jsonParse (GeminiService.GenResponse.body none)
      = GeminiService.ParsedVal.jsResult GeminiService.emptyTextResult ∧
    GeminiService.translateImage jsonParse (GeminiService.GenResponse.body (some ""))
      = GeminiService.ParsedVal.jsResult GeminiService.emptyTextResult ∧
    (∀ t : String, t ≠ "" → jsonParse (GeminiService.cleanOf t) = none →
      GeminiService.translateImage jsonParse (GeminiService.GenResponse.body (some t))
        = GeminiService.ParsedVal.jsResult GeminiService.invalidFormatResult) ∧
    (∀ (t : String) (v : GeminiService.ParsedVal), t ≠ "" →
      jsonParse (GeminiService.cleanOf t) = some v →
      GeminiService.translateImage jsonParse (GeminiService.GenResponse.body (some t)) = v) := by
  refine ⟨rfl, rfl, by simp [GeminiService.translateImage], ?_, ?_⟩
  · intro t ht hp
    simp [GeminiService.translateImage, ht, hp]
  · intro t v ht hp
    simp [GeminiService.translateImage, ht, hp]

/-- C7 witness: a concrete markdown-fenced body is fence-stripped and
parsed normally, and a transport failure yields the connection-error
fallback. -/
theorem translateImage_fallbacks_witness :
    GeminiService.translateImage GeminiService.jpOk
        (GeminiService.GenResponse.body (some GeminiService.fencedBody))
      = GeminiService.ParsedVal.jsResult ⟨[], "ok"⟩ ∧
    GeminiService.translateImage GeminiService.jpOk
        GeminiService.GenResponse.transportError
      = GeminiService.ParsedVal.jsResult GeminiService.connectionErrorResult := by
  obtain ⟨h1, -, -, -, hOk⟩ := translateImage_fallbacks GeminiService.jpOk
  exact ⟨hOk GeminiService.fencedBody _ (by decide) (by decide), h1⟩

/-- C6 counterexample: in a concrete idle state, a capture whose
inference call hits a transport failure ends in `Idle` with no
error-recovery delay — not in `Error` as the claim states. -/
theorem handleFrameCapture_failure_goes_idle :
    (App.handleFrameCapture App.jpNone App.stIdle "img"
        GeminiService.GenResponse.transportError 0).post.appState = AppState.IDLE ∧
    (App.handleFrameCapture App.jpNone App.stIdle "img"
        GeminiService.GenResponse.transportError 0).post.translationData
      = some GeminiService.connectionErrorResult ∧
    (App.handleFrameCapture App.jpNone App.stIdle "img"
        GeminiService.GenResponse.transportError 0).recoveryDelayMs = none ∧
    AppState.IDLE ≠ AppState.ERROR :=
  ⟨rfl, rfl, rfl, by decide⟩

/-- C6 amended: a network error, missing/empty body or unparseable body
is converted by translateImage into a fallback result, so the scan ends
in `Idle` with no recovery delay; the state reaches `Error` only when
the awaited result is falsy (a body parsing to a falsy JSON value), and
then a return to `Idle` is scheduled after 3000 ms in auto mode and
2000 ms one-shot. -/
theorem error_transitions_amended (jsonParse : String → Option GeminiService.ParsedVal)
    (st : App.AppModel) (img : String) (now : Nat)
    (hScan : st.appState ≠ AppState.SCANNING) (hSet : st.isSettingsOpen = false)
    (hOff : st.useOfflineMode = false) :
    (∀ resp : GeminiService.GenResponse,
      (resp = GeminiService.GenResponse.transportError ∨
       resp = GeminiService.GenResponse.body none ∨
       resp = GeminiService.GenResponse.body (some "") ∨
       (∃ t, resp = GeminiService.GenResponse.body (some t) ∧ t ≠ "" ∧
          jsonParse (GeminiService.cleanOf t) = none)) →
      (App.handleFrameCapture jsonParse st img resp now).post.appState = AppState.IDLE ∧
      (App.handleFrameCapture jsonParse st img resp now).recoveryDelayMs = none) ∧
    (∀ t : String, t ≠ "" →
      jsonParse (GeminiService.cleanOf t) = some GeminiService.ParsedVal.jsFalsy →
      (App.handleFrameCapture jsonParse st img
          (GeminiService.GenResponse.body (some t)) now).post.appState = AppState.ERROR ∧
      (App.handleFrameCapture jsonParse st img
          (GeminiService.GenResponse.body (some t)) now).recoveryDelayMs
        = some (if st.isAutoMode then 3000 else 2000) ∧
      (App.errorRecovery (App.handleFrameCapture jsonParse st img
          (GeminiService.GenResponse.body (some t)) now).post).appState
        = AppState.IDLE) := by
  have hguard : ¬ (st.appState = AppState.SCANNING ∨ st.isSettingsOpen = true) := by
    simp [hScan, hSet]
  constructor
  · rintro resp (rfl | rfl | rfl | ⟨t, rfl, ht, hp⟩)
    · unfold App.handleFrameCapture
      rw [if_neg hguard]
      simp [hOff, GeminiService.translateImage]
    · unfold App.handleFrameCapture
      rw [if_neg hguard]
      simp [hOff, GeminiService.translateImage]
    · unfold App.handleFrameCapture
      rw [if_neg hguard]
      simp [hOff, GeminiService.translateImage]
    · unfold App.handleFrameCapture
      rw [if_neg hguard]
      simp [hOff, GeminiService.translateImage, ht, hp]
  · intro t ht hp
    unfold App.handleFrameCapture
    rw [if_neg hguard]
    simp [hOff, GeminiService.translateImage, ht, hp, App.errorRecovery]

/-- C6 amended witness: from a concrete idle one-shot state, a transport
failure ends in `Idle` with no delay, while a body parsing to a falsy
value ends in `Error` with a 2000 ms recovery back to `Idle`. -/
theorem error_transitions_amended_witness :
    (App.handleFrameCapture App.jpFalsy App.stIdle "i"
        GeminiService.GenResponse.transportError 0).post.appState = AppState.IDLE ∧
    (App.handleFrameCapture App.jpFalsy App.stIdle "i"
        (GeminiService.GenResponse.body (some "x")) 0).post.appState = AppState.ERROR ∧
    (App.handleFrameCapture App.jpFalsy App.stIdle "i"
        (GeminiService.GenResponse.body (some "x")) 0).recoveryDelayMs = some 2000 ∧
    (App.errorRecovery (App.handleFrameCapture App.jpFalsy App.stIdle "i"
        (GeminiService.GenResponse.body (some "x")) 0).post).appState = AppState.IDLE := by
  obtain ⟨hFail, hFalsy⟩ :=
    error_transitions_amended App.jpFalsy App.stIdle "i" 0 (by decide) rfl rfl
  obtain ⟨h1, -⟩ := hFail GeminiService.GenResponse.transportError (Or.inl rfl)
  obtain ⟨h2, h3, h4⟩ := hFalsy "x" (by decide) rfl
  exact ⟨h1, h2, h3.trans rfl, h4⟩

/-- C8: while `ScanState = Scanning` or the settings surface is open, a
frame capture is a no-op (state unchanged, no inference call started,
no delay scheduled), and while Scanning the manual-scan trigger is also
a no-op, so no second inference call can begin. -/
theorem scanning_blocks_capture (jsonParse : String → Option GeminiService.ParsedVal)
    (st : App.AppModel) (img : String) (resp : GeminiService.GenResponse) (now : Nat)
    (h : st.appState = AppState.SCANNING ∨ st.isSettingsOpen = true) :
    App.handleFrameCapture jsonParse st img resp now = ⟨st, none, false⟩ ∧
    (App.handleFrameCapture jsonParse st img resp now).inferenceStarted = false ∧
    (st.appState = AppState.SCANNING → App.handleManualScan st = (st, false)) := by
  have h1 : App.handleFrameCapture jsonParse st img resp now = ⟨st, none, false⟩ := by
    unfold App.handleFrameCapture
    rw [if_pos h]
  refine ⟨h1, by rw [h1], ?_⟩
  intro hs
  unfold App.handleManualScan
  rw [if_neg (by simp [hs])]

/-- C8 witness: in a concrete Scanning state, a capture trigger returns
the state unchanged with no call started, and the manual trigger does
nothing. -/
theorem scanning_blocks_capture_witness :
    App.handleFrameCapture App.jpNone App.stScanning "i"
        GeminiService.GenResponse.transportError 0 = ⟨App.stScanning, none, false⟩ ∧
    App.handleManualScan App.stScanning = (App.stScanning, false) := by
  obtain ⟨h1, -, h2⟩ := scanning_blocks_capture App.jpNone App.stScanning "i"
    GeminiService.GenResponse.transportError 0 (Or.inl rfl)
  exact ⟨h1, h2 rfl⟩

/-- C9 counterexample: in a concrete error state with a displayed
result, flipping the camera leaves `ScanState = Error` and keeps the
displayed TranslationResult — the claimed reset to `Idle` with a
discarded result does not happen. -/
theorem toggleCamera_keeps_state :
    (App.toggleCamera App.stError).appState = AppState.ERROR ∧
    (App.toggleCamera App.stError).translationData = some App.exResult ∧
    ¬ ((App.toggleCamera App.stError).appState = AppState.IDLE ∧
       (App.toggleCamera App.stError).translationData = none) := by
  refine ⟨rfl, rfl, ?_⟩
  intro hcontra
  have h : AppState.ERROR = AppState.IDLE := hcontra.1
  exact absurd h (by decide)

/-- C9 amended: a new image upload discards the displayed result, turns
auto mode off and stores the uploaded payload, but leaves ScanState
unchanged; camera flip changes only the facing mode and screen-share
toggle changes only the active stream — neither resets ScanState nor
discards the displayed result. -/
theorem source_switch_amended (st : App.AppModel) (acq : Option Nat)
    (dataUrl : String) (hd : dataUrl ≠ "") :
    (App.toggleCamera st).appState = st.appState ∧
    (App.toggleCamera st).translationData = st.translationData ∧
    (App.toggleCamera st).cameraFacing = App.toggleFacing st.cameraFacing ∧
    (App.toggleScreenShare st acq).appState = st.appState ∧
    (App.toggleScreenShare st acq).translationData = st.translationData ∧
    (App.handleFileUpload st (some dataUrl)).appState = st.appState ∧
    (App.handleFileUpload st (some dataUrl)).translationData = none ∧
    (App.handleFileUpload st (some dataUrl)).isAutoMode = false ∧
    (App.handleFileUpload st (some dataUrl)).staticImage
      = (App.splitOnComma dataUrl)[1]? := by
  have hscreen : (App.toggleScreenShare st acq).appState = st.appState ∧
      (App.toggleScreenShare st acq).translationData = st.translationData := by
    by_cases hsup : st.isScreenShareSupported
    · cases hstream : st.screenStream with
      | some s => simp [App.toggleScreenShare, hsup, hstream]
      | none => cases acq <;> simp [App.toggleScreenShare, hsup, hstream]
    · simp [App.toggleScreenShare, hsup]
  have hfile : (App.handleFileUpload st (some dataUrl)).appState = st.appState ∧
      (App.handleFileUpload st (some dataUrl)).translationData = none ∧
      (App.handleFileUpload st (some dataUrl)).isAutoMode = false ∧
      (App.handleFileUpload st (some dataUrl)).staticImage
        = (App.splitOnComma dataUrl)[1]? := by
    simp only [App.handleFileUpload]
    rw [if_neg hd]
    exact ⟨rfl, rfl, rfl, rfl⟩
  exact ⟨rfl, rfl, rfl, hscreen.1, hscreen.2, hfile.1, hfile.2.1, hfile.2.2.1,
    hfile.2.2.2⟩

/-- C9 amended witness: uploading a concrete data URL over the error
state clears the result, stores the base64 payload and leaves the
error ScanState in place; flipping the camera there changes nothing
but the facing mode. -/
theorem source_switch_amended_witness :
    (App.handleFileUpload App.stError (some "data:image/jpeg;base64,AAAA")).translationData
      = none ∧
    (App.handleFileUpload App.stError (some "data:image/jpeg;base64,AAAA")).staticImage
      = some "AAAA" ∧
    (App.handleFileUpload App.stError (some "data:image/jpeg;base64,AAAA")).appState
      = AppState.ERROR ∧
    (App.toggleCamera App.stError).appState = App.stError.appState := by
  obtain ⟨h1, -, -, -, -, h2, h3, -, h4⟩ :=
    source_switch_amended App.stError (some 1) "data:image/jpeg;base64,AAAA" (by decide)
  exact ⟨h3, h4.trans (by decide), h2.trans rfl, h1⟩

/-- C10: with auto mode off and no static image active, a capture of a
live frame freezes that frame as the active static source, subsequent
captures re-emit the frozen frame, and toggling auto mode on a state
with a frozen frame clears the frozen frame (and the displayed result)
and flips auto mode, resuming live capture. -/
theorem freeze_frame_rule (jsonParse : String → Option GeminiService.ParsedVal)
    (st : App.AppModel) (img : String) (resp : GeminiService.GenResponse) (now : Nat)
    (hAuto : st.isAutoMode = false) (hStatic : st.staticImage = none)
    (hScan : st.appState ≠ AppState.SCANNING) (hSet : st.isSettingsOpen = false) :
    (App.handleFrameCapture jsonParse st img resp now).post.staticImage = some img ∧
    CameraFeed.captureFrame
      (App.handleFrameCapture jsonParse st img resp now).post.staticImage
      (some "live") = some img ∧
    (∀ st' : App.AppModel, st'.staticImage.isSome →
      (App.toggleAutoMode st').staticImage = none ∧
      (App.toggleAutoMode st').translationData = none ∧
      (App.toggleAutoMode st').isAutoMode = ! st'.isAutoMode) ∧
    (∀ live : Option String, CameraFeed.captureFrame none live = live) := by
  have hguard : ¬ (st.appState = AppState.SCANNING ∨ st.isSettingsOpen = true) := by
    simp [hScan, hSet]
  have hcond : ¬ st.isAutoMode = true ∧ st.staticImage = none := by
    simp [hAuto, hStatic]
  have hfreeze : (App.handleFrameCapture jsonParse st img resp now).post.staticImage
      = some img := by
    unfold App.handleFrameCapture
    rw [if_neg hguard, if_pos hcond]
    dsimp only
    split <;> first | rfl | (split <;> rfl)
  refine ⟨hfreeze, ?_, ?_, fun live => rfl⟩
  · rw [hfreeze]
    rfl
  intro st' hsome
  unfold App.toggleAutoMode App.clearStaticImage
  rw [if_pos hsome]
  dsimp only
  split <;> exact ⟨rfl, rfl, rfl⟩

/-- C10 witness: capturing `"frame"` from the concrete idle live state
freezes it as the static source; toggling auto mode on the frozen state
clears the frame and turns auto mode on. -/
theorem freeze_frame_rule_witness :
    (App.handleFrameCapture App.jpNone App.stIdle "frame"
        GeminiService.GenResponse.transportError 0).post.staticImage = some "frame" ∧
    (App.toggleAutoMode App.stFrozen).staticImage = none ∧
    (App.toggleAutoMode App.stFrozen).translationData = none ∧
    (App.toggleAutoMode App.stFrozen).isAutoMode = true := by
  obtain ⟨h1, -, h3, -⟩ := freeze_frame_rule App.jpNone App.stIdle "frame"
    GeminiService.GenResponse.transportError 0 rfl rfl (by decide) rfl
  obtain ⟨h4, h5, h6⟩ := h3 App.stFrozen rfl
  exact ⟨h1, h4, h5, h6.trans rfl⟩
